import Mathlib

/-
Verification of the furniture-production backend (src/app.py and
src/generador_blend.py) against its natural-language specification.

The embedding below translates the decision logic of the pipeline into Lean:
the BOM component record, the irregular-vs-rectangle classification used by
the SVG emitter and by the PNG preview emitter, the per-component drawing
geometry, the Gemini adapter's sentinel/fallback policy, the ZIP packaging
entry list, the per-request file lifecycle of the /generar endpoint, and the
Blender box generator.  External libraries (drawsvg, matplotlib, python-docx,
werkzeug, the Gemini client, bpy) are modelled as structured outputs or opaque
parameters; the repository's own logic is translated line by line.
-/

namespace Stand

/-- A BOM component record as produced by the Gemini adapter and consumed by
every later stage (src/app.py: keys nombre, material, dimensiones_cm
[largo, alto, espesor] in centimeters, cantidad_unidades, notas_fabricacion,
svg_path_d).  `svg_path_d` is `none` for the JSON null of a rectangular
piece. -/
structure Componente where
  nombre : String
  material : String
  dimensiones_cm : ℚ × ℚ × ℚ
  cantidad_unidades : ℤ
  notas_fabricacion : Option String
  svg_path_d : Option String
deriving Repr, DecidableEq

/-- Python truthiness of the `svg_path_d` value: JSON null (None) and the
empty string are falsy, every other string is truthy. -/
def truthy : Option String → Bool
  | none => false
  | some s => s != ""

/-- Python's str.strip() with no argument: remove leading and trailing
whitespace characters. -/
def strip (s : String) : String :=
  String.mk (((s.data.dropWhile Char.isWhitespace).reverse.dropWhile
    Char.isWhitespace).reverse)

/-- The classification test of the vector emitter, src/app.py:183:
`if path_data and len(str(path_data).strip()) > 10`. -/
def es_irregular_svg : Option String → Bool
  | none => false
  | some s => (s != "") && decide (10 < (strip s).length)

/-- The classification test of the raster preview emitter, src/app.py:79:
`if path_data and len(str(path_data).strip()) > 10` (the same expression,
written a second time in `guardar_path_como_png`). -/
def es_irregular_png : Option String → Bool
  | none => false
  | some s => (s != "") && decide (10 < (strip s).length)

/-- One pass of Python's str.replace over a character list, with fuel: when
the pattern is a prefix, emit the replacement and skip the pattern, else keep
one character; the fuel, set to the list's length by `reemplazar`, bounds the
recursion and is never exhausted for a nonempty pattern. -/
def reemplazar_fuel (pat rep : List Char) : ℕ → List Char → List Char
  | 0, l => l
  | _ + 1, [] => []
  | n + 1, c :: rest =>
      if pat.isPrefixOf (c :: rest) then
        rep ++ reemplazar_fuel pat rep n ((c :: rest).drop pat.length)
      else
        c :: reemplazar_fuel pat rep n rest

/-- Python's str.replace(pat, rep) for a nonempty pattern: every
non-overlapping occurrence of `pat`, scanned left to right, is replaced by
`rep` (the empty-pattern case never arises in the program, which only
replaces the literal .svg suffix). -/
def reemplazar (s pat rep : String) : String :=
  if pat = "" then s
  else String.mk (reemplazar_fuel pat.data rep.data s.data.length s.data)

/-- A drawsvg element appended to the per-component drawing
(src/app.py:183-196).  The `translate` and `scaleXY` fields of `path` hold the
two parts of the transform string
`translate(50,50) scale(scale_x, scale_y)` built on line 188. -/
inductive DwElement where
  | path (d : String) (stroke : String) (strokeWidth : ℚ)
      (translate : ℚ × ℚ) (scaleXY : ℚ × ℚ)
  | rectangle (x : ℚ) (y : ℚ) (w : ℚ) (h : ℚ) (stroke : String) (strokeWidth : ℚ)
  | text (content : String) (fontSize : ℚ) (x : ℚ) (y : ℚ)
  | caption (material : String) (l : ℚ) (a : ℚ) (e : ℚ) (fontSize : ℚ) (x : ℚ) (y : ℚ)
deriving Repr, DecidableEq

/-- The vector drawing written for one component: canvas size, elements, and
the file name `secure_filename(comp['nombre']) + '.svg'`
(src/app.py:179-200). -/
structure PlanoSVG where
  canvas_width : ℚ
  canvas_height : ℚ
  elements : List DwElement
  svg_fname : String
deriving Repr, DecidableEq

/-- A matplotlib artist added to the PNG preview (src/app.py:81-90).
`dashed` records `linestyle` being the dashed style. -/
inductive MplPatch where
  | rectangle (x : ℚ) (y : ℚ) (w : ℚ) (h : ℚ) (edgecolor : String) (dashed : Bool)
  | text (content : String) (x : ℚ) (y : ℚ) (color : String)
deriving Repr, DecidableEq

/-- The PNG preview written for one component: the artists drawn and the file
name (src/app.py:62-95 and 204-205). -/
structure PreviewPNG where
  patches : List MplPatch
  png_fname : String
deriving Repr, DecidableEq

/-- Translation of `guardar_path_como_png` (src/app.py:62-95): the artists it
draws into the figure before saving.  The irregular branch draws a red dashed
bounding box and a warning label; the other branch draws a solid black
rectangle labelled RECTANGULAR. -/
def guardar_path_como_png (path_data : Option String) (w_draw h_draw : ℚ) :
    List MplPatch :=
  if es_irregular_png path_data then
    [ MplPatch.rectangle 0 0 w_draw h_draw "red" true,
      MplPatch.text "FORMA IRREGULAR (Ver SVG)" (w_draw / 2) (h_draw / 2) "red" ]
  else
    [ MplPatch.rectangle 0 0 w_draw h_draw "black" false,
      MplPatch.text "RECTANGULAR" (w_draw / 2) (h_draw / 2) "black" ]

/-- The loop body of `generar_planos_vectoriales_svg` for one component
(src/app.py:169-209): computes `w_draw = l * 10`, `h_draw = a * 10`, a canvas
of `(w_draw + 100, h_draw + 100)`, the SVG elements (scaled path with
transform translate(50,50) scale(w_draw/100, h_draw/100) when classified
irregular, otherwise a rectangle at (50,50)), the caption, the SVG file name
from `secure_filename` (passed in as the opaque external `sf`), and the PNG
preview whose name replaces the .svg suffix by .png. -/
def generar_pieza (sf : String → String) (comp : Componente) :
    PlanoSVG × PreviewPNG :=
  let l := comp.dimensiones_cm.1
  let a := comp.dimensiones_cm.2.1
  let e := comp.dimensiones_cm.2.2
  let w_draw := l * 10
  let h_draw := a * 10
  let path_data := comp.svg_path_d
  let canvas_width := w_draw + 100
  let canvas_height := h_draw + 100
  let mainElems :=
    if es_irregular_svg path_data then
      let scale_x := w_draw / 100
      let scale_y := h_draw / 100
      [ DwElement.path (path_data.getD "") "#E50000" 4 (50, 50) (scale_x, scale_y),
        DwElement.text (comp.nombre ++ " (IRREGULAR)") 16 50 30 ]
    else
      [ DwElement.rectangle 50 50 w_draw h_draw "black" 2,
        DwElement.text (comp.nombre ++ " (RECTANGULAR)") 16 50 30 ]
  let svg_fname := sf comp.nombre ++ ".svg"
  let plano : PlanoSVG :=
    { canvas_width := canvas_width
      canvas_height := canvas_height
      elements := mainElems ++
        [DwElement.caption comp.material l a e 12 50 (canvas_height - 20)]
      svg_fname := svg_fname }
  let png_fname := reemplazar svg_fname ".svg" ".png"
  (plano, { patches := guardar_path_como_png path_data w_draw h_draw
            png_fname := png_fname })

/-- Translation of `generar_planos_vectoriales_svg` (src/app.py:156-213): one
(SVG plan, PNG preview) pair per component, in input order. -/
def generar_planos_vectoriales_svg (sf : String → String)
    (componentes : List Componente) : List (PlanoSVG × PreviewPNG) :=
  componentes.map (generar_pieza sf)

/-- Whether the vector drawing contains a path element (every path element the
emitter produces carries the translate/scale transform of src/app.py:188). -/
def tiene_path_escalado (p : PlanoSVG) : Bool :=
  p.elements.any fun el =>
    match el with
    | DwElement.path _ _ _ _ _ => true
    | _ => false

/-- Whether the PNG preview contains the dashed-box irregular placeholder
(src/app.py:81-82). -/
def tiene_caja_discontinua (png : PreviewPNG) : Bool :=
  png.patches.any fun p =>
    match p with
    | MplPatch.rectangle _ _ _ _ _ dashed => dashed
    | _ => false

/-- The sentinel component returned when GEMINI_API_KEY is not configured,
parsed from the literal JSON on src/app.py:109. -/
def error_config_componente : Componente :=
  { nombre := "Error Config"
    material := "N/A"
    dimensiones_cm := (10, 10, 10)
    cantidad_unidades := 0
    notas_fabricacion := some "Configure la API KEY"
    svg_path_d := none }

/-- The fallback component returned when the Gemini call raises, parsed from
the literal JSON on src/app.py:142. -/
def fallback_componente : Componente :=
  { nombre := "Muro Base (Fallback)"
    material := "MDF"
    dimensiones_cm := (100, 200, 5)
    cantidad_unidades := 1
    notas_fabricacion := some "Generado por error de conexión IA"
    svg_path_d := none }

/-- The environment of the Gemini adapter: the credential read from the
environment (src/app.py:30) and what the external call-plus-JSON-parse would
produce, `Except.error` standing for any raised exception
(src/app.py:112-138). -/
structure GeminiEnv where
  gemini_api_key : Option String
  respuesta : Except String (List Componente)

/-- What the adapter run yields: the component list it returns and whether the
external service was contacted. -/
structure DesgloseResult where
  componentes : List Componente
  llamada_realizada : Bool
deriving Repr

/-- Translation of `analizar_y_generar_desglose` (src/app.py:101-150).
`if not GEMINI_API_KEY` returns the sentinel without touching the network;
otherwise the call runs and any raised error is caught and replaced by the
fallback component, so the function always returns normally (the error is
never propagated to the caller). -/
def analizar_y_generar_desglose (env : GeminiEnv) : DesgloseResult :=
  if !truthy env.gemini_api_key then
    { componentes := [error_config_componente], llamada_realizada := false }
  else
    match env.respuesta with
    | Except.ok comps => { componentes := comps, llamada_realizada := true }
    | Except.error _ => { componentes := [fallback_componente], llamada_realizada := true }

/-- The SVG file name computed by the vector emitter, src/app.py:198:
`secure_filename(comp['nombre']) + '.svg'`. -/
def svg_fname_emitida (sf : String → String) (nombre : String) : String :=
  sf nombre ++ ".svg"

/-- The SVG file name printed in the component's section of the manual,
src/app.py:300-301: `secure_filename(comp['nombre']) + '.svg'`. -/
def svg_fname_en_manual (sf : String → String) (nombre : String) : String :=
  sf nombre ++ ".svg"

/-- The archive entry names written on the success path of the endpoint
(src/app.py:336-341): the manual, the render under the fixed name
`Render_Original.jpg`, and `Planos_Corte/<basename of each svg file>`. -/
def zip_entries (sf : String → String) (componentes : List Componente) :
    List String :=
  ["Manual_Produccion.docx", "Render_Original.jpg"] ++
    (generar_planos_vectoriales_svg sf componentes).map
      (fun pr => "Planos_Corte/" ++ pr.1.svg_fname)

/-- The extension of an uploaded file name: the text after the last dot. -/
def extension_de (s : String) : String :=
  String.mk ((s.data.reverse.takeWhile (fun c => c != '.')).reverse)

/-- Modelled from the spec: the archive entry list the specification describes
for the success response: `Manual_Produccion.docx`, `Render_Original.<ext>`
where `<ext>` is the uploaded file's extension, and one
`Planos_Corte/<component>.svg` entry per component. -/
def zip_entries_segun_spec (sf : String → String) (uploaded : String)
    (componentes : List Componente) : List String :=
  ["Manual_Produccion.docx", "Render_Original." ++ extension_de uploaded] ++
    componentes.map (fun c => "Planos_Corte/" ++ (sf c.nombre ++ ".svg"))

/-- A filesystem path touched by a request, by the directory it lives in:
`uploads/<name>` (UPLOAD_FOLDER), `outputs/<name>` (OUTPUT_FOLDER),
`outputs/planos_svg/<name>` (the vector-output scratch directory), and
`outputs/temp_images/<name>` (TEMP_FOLDER, the raster scratch directory). -/
inductive FPath where
  | uploads (name : String)
  | outputs (name : String)
  | planosSvg (name : String)
  | tempImages (name : String)
deriving Repr, DecidableEq

/-- Whether a path lies under `outputs/planos_svg`. -/
def en_planos_svg : FPath → Bool
  | FPath.planosSvg _ => true
  | _ => false

/-- Whether a path lies under `outputs/temp_images`. -/
def en_temp_images : FPath → Bool
  | FPath.tempImages _ => true
  | _ => false

/-- The filesystem state the request manipulates: the files present and
whether each of the two scratch directories exists. -/
structure FS where
  files : List FPath
  planos_svg_dir : Bool
  temp_dir : Bool
deriving Repr, DecidableEq

/-- The path of the uploaded render, `os.path.join(UPLOAD_FOLDER, filename)`
(src/app.py:325). -/
def render_fpath (filename : String) : FPath :=
  FPath.uploads filename

/-- The path of the manual, `os.path.join(OUTPUT_FOLDER,
"Manual_Produccion.docx")` (src/app.py:220). -/
def doc_fpath : FPath :=
  FPath.outputs "Manual_Produccion.docx"

/-- The on-disk path of one component's SVG plan (src/app.py:198-199). -/
def svg_fpath (sf : String → String) (c : Componente) : FPath :=
  FPath.planosSvg (sf c.nombre ++ ".svg")

/-- The on-disk path of one component's PNG preview (src/app.py:204-205). -/
def png_fpath (sf : String → String) (c : Componente) : FPath :=
  FPath.tempImages (reemplazar (sf c.nombre ++ ".svg") ".svg" ".png")

/-- The filesystem effect of `generar_planos_vectoriales_svg`
(src/app.py:160-209) after processing the first `comps` components: the
vector-output directory is removed if present and recreated empty
(src/app.py:161-162), then one SVG and one PNG file are written per
component. -/
def escribir_planos_fs (sf : String → String) (comps : List Componente)
    (fs : FS) : FS :=
  let limpio := fs.files.filter fun p => !en_planos_svg p
  { files := comps.map (svg_fpath sf) ++ comps.map (png_fpath sf) ++ limpio
    planos_svg_dir := true
    temp_dir := fs.temp_dir }

/-- The cleanup of the finally block (src/app.py:359-372): each collected
temporary file is removed if it exists, then the vector-output directory and
the raster scratch directory are removed recursively when they exist. -/
def limpieza (temp_files : List FPath) (fs : FS) : FS :=
  let fs1 := fs.files.filter fun p => !temp_files.contains p
  let fs2 := if fs.planos_svg_dir then fs1.filter fun p => !en_planos_svg p else fs1
  let fs3 := if fs.temp_dir then fs2.filter fun p => !en_temp_images p else fs2
  { files := fs3
    planos_svg_dir := false
    temp_dir := false }

/-- Where a request raises, if anywhere: `carga` before the render is saved
(src/app.py:323), `datos` at `json.loads(request.form['data'])`
(src/app.py:327), `planos k` inside the plan loop after `k` components were
fully written (src/app.py:169-209), `manual` inside `generar_manual_word`
before the document is saved (src/app.py:219-305), `zip` after the manual was
saved but before `temp_files` is assigned (src/app.py:335-343), and `ninguno`
for a successful request. -/
inductive FailPoint where
  | ninguno
  | carga
  | datos
  | planos (k : ℕ)
  | manual
  | zipStage
deriving Repr, DecidableEq

/-- The filesystem state and `temp_files` list reached by the try block of
`generar_manual` (src/app.py:315-353) before the finally block runs, for each
fail point.  The request starts with no request-owned files on disk, no
vector-output directory, and the raster scratch directory present (created at
import, src/app.py:48).  `temp_files` is initialised to the empty list
(src/app.py:316) and is assigned the collected paths only on src/app.py:346,
after packaging; `docx_png_files` equals the PNG list because every preview
written in the loop still exists when the manual embeds it. -/
def try_block (sf : String → String) (renderName : String)
    (comps : List Componente) (fp : FailPoint) : FS × List FPath :=
  let fs0 : FS := { files := [], planos_svg_dir := false, temp_dir := true }
  match fp with
  | FailPoint.carga => (fs0, [])
  | FailPoint.datos =>
      ({ fs0 with files := render_fpath renderName :: fs0.files }, [])
  | FailPoint.planos k =>
      let fs1 := { fs0 with files := render_fpath renderName :: fs0.files }
      (escribir_planos_fs sf (comps.take k) fs1, [])
  | FailPoint.manual =>
      let fs1 := { fs0 with files := render_fpath renderName :: fs0.files }
      (escribir_planos_fs sf comps fs1, [])
  | FailPoint.zipStage =>
      let fs1 := { fs0 with files := render_fpath renderName :: fs0.files }
      let fs2 := escribir_planos_fs sf comps fs1
      ({ fs2 with files := doc_fpath :: fs2.files }, [])
  | FailPoint.ninguno =>
      let fs1 := { fs0 with files := render_fpath renderName :: fs0.files }
      let fs2 := escribir_planos_fs sf comps fs1
      let fs3 := { fs2 with files := doc_fpath :: fs2.files }
      let svgs := comps.map (svg_fpath sf)
      let pngs := comps.map (png_fpath sf)
      let docx_pngs := pngs
      (fs3, [render_fpath renderName, doc_fpath] ++ svgs ++ pngs ++ docx_pngs)

/-- One full request to POST /generar (src/app.py:314-372): the try block up
to its fail point, then the finally block's cleanup.  Returns the filesystem
state after the request. -/
def generar_manual_run (sf : String → String) (renderName : String)
    (comps : List Componente) (fp : FailPoint) : FS :=
  let (fs, temp_files) := try_block sf renderName comps fp
  limpieza temp_files fs

/-- One Blender object created for a component by
src/generador_blend.py:17-38: its name, its scale (the cm dimensions divided
by 100, line 25) and the z coordinate of its location (line 29). -/
structure BlenderObj where
  name : String
  scale : ℚ × ℚ × ℚ
  location_z : ℚ
deriving Repr, DecidableEq

/-- The loop of `generate_3d_model` (src/generador_blend.py:14-30) starting
from accumulator `z_offset`: each component yields a unit cube scaled to
(l/100, a/100, e/100) placed at `z_offset + (e/100)/2`, and the accumulator
grows by `e/100`. -/
def generate_3d_model_desde (z_offset : ℚ) : List Componente → List BlenderObj
  | [] => []
  | comp :: rest =>
      let l := comp.dimensiones_cm.1
      let a := comp.dimensiones_cm.2.1
      let e := comp.dimensiones_cm.2.2
      { name := comp.nombre
        scale := (l / 100, a / 100, e / 100)
        location_z := z_offset + (e / 100) / 2 } ::
        generate_3d_model_desde (z_offset + e / 100) rest

/-- Translation of `generate_3d_model` (src/generador_blend.py:5-38): the
objects created for a component list, with the stacking accumulator starting
at 0 (line 14). -/
def generate_3d_model (comps : List Componente) : List BlenderObj :=
  generate_3d_model_desde 0 comps

/-- A component's thickness converted to meters, `e / 100`
(src/generador_blend.py:25). -/
def espesor_m (c : Componente) : ℚ :=
  c.dimensiones_cm.2.2 / 100

/-- The z coordinate of the bottom face of a generated box: a unit cube
scaled by `scale` and centered at `location_z` reaches down half its scaled
height. -/
def fondo_caja (o : BlenderObj) : ℚ :=
  o.location_z - o.scale.2.2 / 2

/-- The rectangle piece of the specification's round-trip example:
100 x 50 x 2 cm, named Panel A, no outline descriptor. -/
def panelA : Componente :=
  { nombre := "Panel_A"
    material := "MDF"
    dimensiones_cm := (100, 50, 2)
    cantidad_unidades := 1
    notas_fabricacion := none
    svg_path_d := none }

/-- The irregular piece of the specification's round-trip example: a
30-character path string, named Panel B. -/
def panelB : Componente :=
  { nombre := "Panel_B"
    material := "MDF"
    dimensiones_cm := (60, 40, 2)
    cantidad_unidades := 1
    notas_fabricacion := some "curva superior"
    svg_path_d := some "M 0 0 L 100 0 L 100 100 L 0 Z" }

theorem es_irregular_png_eq_svg (p : Option String) :
    es_irregular_png p = es_irregular_svg p := by
  cases p <;> rfl

/-- Claim C1: for every component, the outline is classified as irregular iff
its outline descriptor is present and the trimmed string's length exceeds 10
characters, otherwise the component is drawn as a rectangle; this is the
classification used both by the vector (SVG) emitter and by the raster (PNG)
preview emitter. -/
theorem c1_clasificacion_irregular (p : Option String) :
    (es_irregular_svg p = true ↔ ∃ s, p = some s ∧ 10 < (strip s).length) ∧
    (es_irregular_png p = true ↔ ∃ s, p = some s ∧ 10 < (strip s).length) := by
  have h : es_irregular_svg p = true ↔ ∃ s, p = some s ∧ 10 < (strip s).length := by
    cases p with
    | none => simp [es_irregular_svg]
    | some s =>
      by_cases hs : s = ""
      · subst hs
        simp [es_irregular_svg]
        decide
      · simp [es_irregular_svg, hs]
  exact ⟨h, by rw [es_irregular_png_eq_svg]; exact h⟩

/-- Claim C5: with no AI-service credential configured, the adapter returns
exactly one sentinel component flagging the configuration error with quantity
0, and the external service is not called. -/
theorem c5_sin_credencial (env : GeminiEnv)
    (h : truthy env.gemini_api_key = false) :
    analizar_y_generar_desglose env =
      { componentes := [error_config_componente], llamada_realizada := false } ∧
    error_config_componente.cantidad_unidades = 0 ∧
    (analizar_y_generar_desglose env).componentes.length = 1 := by
  refine ⟨?_, rfl, ?_⟩ <;> simp [analizar_y_generar_desglose, h]

theorem c5_sin_credencial_witness :
    analizar_y_generar_desglose
        { gemini_api_key := none, respuesta := Except.ok [] } =
      { componentes := [error_config_componente], llamada_realizada := false } ∧
    error_config_componente.cantidad_unidades = 0 ∧
    (analizar_y_generar_desglose
        { gemini_api_key := none, respuesta := Except.ok [] }).componentes.length = 1 :=
  c5_sin_credencial { gemini_api_key := none, respuesta := Except.ok [] } rfl

/-- Claim C6: if the external AI call raises any error, the adapter returns
exactly one fallback component representing the generic base panel with
quantity 1; the adapter returns normally, so the error is not propagated and
the request is not aborted. -/
theorem c6_fallo_ia (env : GeminiEnv) (msg : String)
    (hk : truthy env.gemini_api_key = true)
    (he : env.respuesta = Except.error msg) :
    analizar_y_generar_desglose env =
      { componentes := [fallback_componente], llamada_realizada := true } ∧
    fallback_componente.cantidad_unidades = 1 ∧
    (analizar_y_generar_desglose env).componentes.length = 1 := by
  refine ⟨?_, rfl, ?_⟩ <;> simp [analizar_y_generar_desglose, hk, he]

theorem c6_fallo_ia_witness :
    analizar_y_generar_desglose
        { gemini_api_key := some "clave", respuesta := Except.error "timeout" } =
      { componentes := [fallback_componente], llamada_realizada := true } ∧
    fallback_componente.cantidad_unidades = 1 ∧
    (analizar_y_generar_desglose
        { gemini_api_key := some "clave",
          respuesta := Except.error "timeout" }).componentes.length = 1 :=
  c6_fallo_ia { gemini_api_key := some "clave", respuesta := Except.error "timeout" }
    "timeout" rfl rfl

/-- Claim C8 counterexample: the claim says exactly one of the two records
lacks a fabrication-notes field, but in the code both the configuration-error
sentinel (src/app.py:109) and the AI-failure fallback (src/app.py:142) carry
a notas_fabricacion value, so the exactly-one-lacks statement is false. -/
theorem c8_counterexample :
    ¬ ((error_config_componente.notas_fabricacion = none ∧
          fallback_componente.notas_fabricacion ≠ none) ∨
        (error_config_componente.notas_fabricacion ≠ none ∧
          fallback_componente.notas_fabricacion = none)) := by
  simp [error_config_componente, fallback_componente]

/-- Claim C8 (amended): the configuration-error sentinel record and the
AI-failure fallback record use the same field convention for fabrication
notes: both carry a notas_fabricacion value, neither lacks it. -/
theorem c8_mismas_convenciones :
    error_config_componente.notas_fabricacion.isSome = true ∧
    fallback_componente.notas_fabricacion.isSome = true :=
  ⟨rfl, rfl⟩

/-- Claim C10: the SVG filename written by the vector emitter
(src/app.py:198) and the vector-filename reference printed in the manual
(src/app.py:300) are computed by the same transform, the filesystem-safe
version of the component name plus the .svg extension, so the manual's
reference always equals the emitted filename. -/
theorem c10_nombre_svg_coincide (sf : String → String) (comp : Componente) :
    svg_fname_en_manual sf comp.nombre = (generar_pieza sf comp).1.svg_fname ∧
    svg_fname_en_manual sf comp.nombre = svg_fname_emitida sf comp.nombre ∧
    svg_fname_en_manual sf comp.nombre = sf comp.nombre ++ ".svg" :=
  ⟨rfl, rfl, rfl⟩

/-- Claim C2: for every component processed in one pipeline run, the vector
emitter and the raster emitter never disagree on the irregular-vs-rectangle
classification: the SVG plan contains the scaled path exactly when the PNG
preview contains the dashed-box placeholder, and both show a plain rectangle
otherwise. -/
theorem c2_emisores_coinciden (sf : String → String) (comps : List Componente)
    (pr : PlanoSVG × PreviewPNG)
    (hpr : pr ∈ generar_planos_vectoriales_svg sf comps) :
    tiene_path_escalado pr.1 = tiene_caja_discontinua pr.2 ∧
    (tiene_path_escalado pr.1 = false →
      (∃ w h, DwElement.rectangle 50 50 w h "black" 2 ∈ pr.1.elements) ∧
      (∃ w h, MplPatch.rectangle 0 0 w h "black" false ∈ pr.2.patches)) := by
  rcases List.mem_map.mp hpr with ⟨c, _, rfl⟩
  rw [generar_pieza]
  simp only [guardar_path_como_png, es_irregular_png_eq_svg]
  cases h : es_irregular_svg c.svg_path_d <;>
    simp [tiene_path_escalado, tiene_caja_discontinua, h]

theorem c2_emisores_coinciden_witness :
    tiene_path_escalado (generar_pieza id panelB).1 =
      tiene_caja_discontinua (generar_pieza id panelB).2 ∧
    (tiene_path_escalado (generar_pieza id panelB).1 = false →
      (∃ w h, DwElement.rectangle 50 50 w h "black" 2
        ∈ (generar_pieza id panelB).1.elements) ∧
      (∃ w h, MplPatch.rectangle 0 0 w h "black" false
        ∈ (generar_pieza id panelB).2.patches)) :=
  c2_emisores_coinciden id [panelB] (generar_pieza id panelB)
    (List.mem_singleton.mpr rfl)

/-- Claim C4 counterexample: the claim says the render is archived as
Render_Original.<ext> with <ext> the uploaded file's extension, but the
endpoint hardcodes Render_Original.jpg (src/app.py:338): for an upload named
foto.png the produced entry list differs from the claimed one, containing
Render_Original.jpg and no Render_Original.png. -/
theorem c4_counterexample :
    zip_entries id [panelA] ≠ zip_entries_segun_spec id "foto.png" [panelA] ∧
    "Render_Original.jpg" ∈ zip_entries id [panelA] ∧
    ("Render_Original." ++ extension_de "foto.png") ∉ zip_entries id [panelA] := by
  refine ⟨?_, ?_, ?_⟩ <;> decide

/-- Claim C4 (amended): on success the archive contains exactly the manual
Manual_Produccion.docx, the original render under the fixed name
Render_Original.jpg regardless of the uploaded file's extension, and one
Planos_Corte/<component>.svg entry per component, the SVG entry names derived
deterministically from the component names by the filesystem-safe transform
plus the .svg extension. -/
theorem c4_contenido_zip (sf : String → String) (comps : List Componente) :
    zip_entries sf comps =
      "Manual_Produccion.docx" :: "Render_Original.jpg" ::
        comps.map (fun c => "Planos_Corte/" ++ (sf c.nombre ++ ".svg")) ∧
    (zip_entries sf comps).length = 2 + comps.length := by
  constructor
  · simp only [zip_entries, generar_planos_vectoriales_svg, List.map_map]
    rfl
  · simp [zip_entries, generar_planos_vectoriales_svg]
    omega

/-- Claim C7: for a component with physical length l and height a in cm, the
drawn width is 10*l and the drawn height is 10*a (1 cm = 10 drawing units),
the canvas is (drawn width + 100) by (drawn height + 100), the rectangle case
draws the 10*l by 10*a rectangle at (50,50), and the irregular case places
the path with transform translate(50,50) and independent per-axis scaling by
(drawn width/100, drawn height/100). -/
theorem c7_geometria (sf : String → String) (comp : Componente)
    (l a e : ℚ) (hd : comp.dimensiones_cm = (l, a, e)) :
    (generar_pieza sf comp).1.canvas_width = 10 * l + 100 ∧
    (generar_pieza sf comp).1.canvas_height = 10 * a + 100 ∧
    (es_irregular_svg comp.svg_path_d = true →
      ∃ d, DwElement.path d "#E50000" 4 (50, 50) ((10 * l) / 100, (10 * a) / 100)
        ∈ (generar_pieza sf comp).1.elements) ∧
    (es_irregular_svg comp.svg_path_d = false →
      DwElement.rectangle 50 50 (10 * l) (10 * a) "black" 2
        ∈ (generar_pieza sf comp).1.elements) := by
  refine ⟨?_, ?_, ?_, ?_⟩
  · simp [generar_pieza, hd]; ring
  · simp [generar_pieza, hd]; ring
  · intro h
    exact ⟨comp.svg_path_d.getD "", by simp [generar_pieza, hd, h, mul_comm]⟩
  · intro h
    simp [generar_pieza, hd, h, mul_comm]

theorem c7_geometria_witness :
    (generar_pieza id panelB).1.canvas_width = 10 * 60 + 100 ∧
    (generar_pieza id panelB).1.canvas_height = 10 * 40 + 100 ∧
    (es_irregular_svg panelB.svg_path_d = true →
      ∃ d, DwElement.path d "#E50000" 4 (50, 50) ((10 * 60) / 100, (10 * 40) / 100)
        ∈ (generar_pieza id panelB).1.elements) ∧
    (es_irregular_svg panelB.svg_path_d = false →
      DwElement.rectangle 50 50 (10 * 60) (10 * 40) "black" 2
        ∈ (generar_pieza id panelB).1.elements) :=
  c7_geometria id panelB 60 40 2 rfl

/-- Claim C3: evaluation of the request model at the failing input.  A
request whose data form field fails JSON parsing right after the render
foto.jpg was saved (fail point datos) ends with uploads/foto.jpg still on
disk, because temp_files is assigned only on the success path
(src/app.py:316 and 346); the same holds when the manual stage raises (the
corrupt-image scenario of the spec).  A successful run removes every
temporary path, and the two scratch directories are removed in every case. -/
theorem c3_render_sobrevive :
    (generar_manual_run id "foto.jpg" [panelA, panelB] FailPoint.datos).files =
      [FPath.uploads "foto.jpg"] ∧
    (generar_manual_run id "foto.jpg" [panelA, panelB] FailPoint.manual).files =
      [FPath.uploads "foto.jpg"] ∧
    (generar_manual_run id "foto.jpg" [panelA, panelB] FailPoint.ninguno).files = [] ∧
    (generar_manual_run id "foto.jpg" [panelA, panelB] FailPoint.datos).planos_svg_dir
      = false ∧
    (generar_manual_run id "foto.jpg" [panelA, panelB] FailPoint.datos).temp_dir
      = false := by
  refine ⟨?_, ?_, ?_, ?_, ?_⟩ <;> decide

theorem generate_3d_model_desde_length (comps : List Componente) :
    ∀ z : ℚ, (generate_3d_model_desde z comps).length = comps.length := by
  induction comps with
  | nil => intro z; rfl
  | cons c rest ih =>
      intro z
      simp [generate_3d_model_desde, ih]

theorem generate_3d_model_desde_names (comps : List Componente) :
    ∀ z : ℚ, (generate_3d_model_desde z comps).map BlenderObj.name =
      comps.map Componente.nombre := by
  induction comps with
  | nil => intro z; rfl
  | cons c rest ih =>
      intro z
      simp [generate_3d_model_desde, ih]

theorem generate_3d_model_desde_get? (comps : List Componente) :
    ∀ (z : ℚ) (i : ℕ) (c : Componente), comps.get? i = some c →
      (generate_3d_model_desde z comps).get? i = some
        { name := c.nombre
          scale := (c.dimensiones_cm.1 / 100, c.dimensiones_cm.2.1 / 100,
                    c.dimensiones_cm.2.2 / 100)
          location_z := z + ((comps.take i).map espesor_m).sum + espesor_m c / 2 } := by
  induction comps with
  | nil =>
      intro z i c hc
      simp [List.get?] at hc
  | cons d rest ih =>
      intro z i c hc
      cases i with
      | zero =>
          simp only [List.get?] at hc
          cases hc
          simp [generate_3d_model_desde, List.get?, espesor_m]
      | succ i =>
          simp only [List.get?] at hc
          simp only [generate_3d_model_desde, List.get?, List.take, List.map_cons,
            List.sum_cons]
          rw [ih (z + d.dimensiones_cm.2.2 / 100) i c hc]
          simp [espesor_m]
          ring

/-- Claim C9: the 3D generator produces one box per component in input order
(same length, same names in order), each box scaled from centimeters to
meters (each dimension divided by 100), and the boxes stacked along the z
axis so that each box's bottom sits at the cumulative sum of the preceding
components' thicknesses in meters. -/
theorem c9_generador_3d (comps : List Componente) (i : ℕ) (c : Componente)
    (o : BlenderObj) (hc : comps.get? i = some c)
    (ho : (generate_3d_model comps).get? i = some o) :
    (generate_3d_model comps).length = comps.length ∧
    (generate_3d_model comps).map BlenderObj.name = comps.map Componente.nombre ∧
    o.scale = (c.dimensiones_cm.1 / 100, c.dimensiones_cm.2.1 / 100,
               c.dimensiones_cm.2.2 / 100) ∧
    fondo_caja o = ((comps.take i).map espesor_m).sum := by
  have hg := generate_3d_model_desde_get? comps 0 i c hc
  rw [generate_3d_model] at ho
  rw [hg] at ho
  cases ho
  refine ⟨generate_3d_model_desde_length comps 0,
    generate_3d_model_desde_names comps 0, rfl, ?_⟩
  simp [fondo_caja, espesor_m]

theorem c9_generador_3d_witness :
    (generate_3d_model [panelA, panelB]).length = [panelA, panelB].length ∧
    (generate_3d_model [panelA, panelB]).map BlenderObj.name =
      [panelA, panelB].map Componente.nombre ∧
    BlenderObj.scale
        { name := "Panel_B", scale := (3 / 5, 2 / 5, 1 / 50), location_z := 3 / 100 } =
      (panelB.dimensiones_cm.1 / 100, panelB.dimensiones_cm.2.1 / 100,
       panelB.dimensiones_cm.2.2 / 100) ∧
    fondo_caja
        { name := "Panel_B", scale := (3 / 5, 2 / 5, 1 / 50), location_z := 3 / 100 } =
      (([panelA, panelB].take 1).map espesor_m).sum :=
  c9_generador_3d [panelA, panelB] 1 panelB
    { name := "Panel_B", scale := (3 / 5, 2 / 5, 1 / 50), location_z := 3 / 100 }
    rfl
    (by simp [generate_3d_model, generate_3d_model_desde, panelA, panelB, List.get?]
        norm_num)

end Stand
